import Mathlib

/- Shallow embedding of the agentic research workflow of the slackbotai/slack-bot
repository: the graph state schemas (source/agentic_workflow/graph_classes.py),
the analyst model (analyst_builder.py), the interview dispatchers and nodes
(interview_agents.py), the human-sync polling gateway (input_agents.py), the
writer dispatcher (writer_agents.py) and the driver (workflow.py).

External collaborators (the language model, the Slack API, MongoDB, the document
exporter) are passed in as oracle parameters, so every embedded function is an
executable Lean definition.  Slack timestamps are modelled as naturals; the
comparisons the code performs on them (equality and strict order) are
order-faithful to the string timestamps of the source. -/

namespace SlackBot

/-- Auxiliary scan for `containsSub`. -/
def containsSubAux (n : List Char) : List Char → Bool
  | [] => n.isEmpty
  | c :: t => n.isPrefixOf (c :: t) || containsSubAux n t

/-- The Python `in` operator on strings: `containsSub needle hay` is
`needle in hay`. -/
def containsSub (needle hay : String) : Bool :=
  containsSubAux needle.data hay.data

/-- Python truthiness of an optional string: `None` and `""` are falsy,
every other string is truthy. -/
def truthyStr : Option String → Bool
  | none => false
  | some s => !(s == "")

/-- Python `f"{x}"` on an optional string (interpolating `None` prints "None"). -/
def pyStr : Option String → String
  | none => "None"
  | some s => s

/-- `Analyst` (analyst_builder.py): immutable persona record. -/
structure Analyst where
  affiliation : String
  name : String
  role : String
  description : String
deriving DecidableEq, Repr

/-- `Analyst.persona` property (analyst_builder.py). -/
def Analyst.persona (a : Analyst) : String :=
  "Name: " ++ a.name ++ "\nRole: " ++ a.role ++
  "\nAffiliation: " ++ a.affiliation ++ "\nDescription: " ++ a.description

/-- Role tag of a langchain message (`HumanMessage` / `AIMessage` /
`SystemMessage`). -/
inductive MsgRole
  | ai
  | human
  | system
deriving DecidableEq, Repr

/-- A langchain chat message: role, optional `name` attribute (set to
`"expert"` on generated answers), and text content. -/
structure Msg where
  role : MsgRole
  name : Option String := none
  content : String := ""
deriving DecidableEq, Repr

/-- A formatted context document entry (the `{"role": ..., "content": ...}`
dicts built by `search_web` / `read_files`). -/
structure CtxDoc where
  role : String
  content : String
deriving DecidableEq, Repr

/-- `InterviewState` (graph_classes.py): the branch-local state of one
interview sub-graph run.  `MessagesState` contributes the `messages` field.
Fields that the code reads through `state.get` with a default are `Option`s. -/
structure InterviewState where
  messages : List Msg := []
  max_num_turns : Option Nat := none
  context : List (List CtxDoc) := []
  analyst : Option Analyst := none
  interview : Option String := none
  sections : List String := []
  urls : Option (List String) := none
  topic : Option String := none
  files_urls_browse : Option String := none
  browse_query : Option String := none
deriving Repr

/-- Default message object used to state list indexing (`messages[-2]`). -/
def defaultMsg : Msg := { role := MsgRole.human }

/-- `determine_search_path` (interview_agents.py, lines 311-337): conditional
edge of the interview sub-graph.  Reads `state.get("files_urls_browse", "")`
and routes on substring tests; the final implicit Python `return None` is
modelled by `none`. -/
def determine_search_path (state : InterviewState) : Option String :=
  let choice := state.files_urls_browse.getD ""
  if containsSub "browse" choice || containsSub "urls" choice then
    some "search_web"
  else if containsSub "files" choice then
    some "read_information"
  else
    none

/-- `route_messages` (interview_agents.py, lines 543-583): conditional edge
between question and answer.  Counts AI messages named `name`
(default "expert"), compares against `state.get('max_num_turns', 4)`, and
checks the fixed closing phrase in `messages[-2]` only when
`len(messages) >= 4`. -/
def route_messages (state : InterviewState) (name : String := "expert") : String :=
  let messages := state.messages
  let max_num_turns := state.max_num_turns.getD 4
  let num_responses :=
    (messages.filter (fun m => m.role == MsgRole.ai && m.name == some name)).length
  if num_responses ≥ max_num_turns then
    "save_interview"
  else if messages.length ≥ 4 then
    let last_question := messages.getD (messages.length - 2) defaultMsg
    if containsSub "Thank you so much for your help" last_question.content then
      "save_interview"
    else
      "ask_question"
  else
    "ask_question"

/-- `write_section` (interview_agents.py, lines 605-634): the partial update it
returns is `{"sections": [section.content]}`; `llm_section` is the content the
language model produced for the section. -/
def write_section (llm_section : String) : List String :=
  [llm_section]

/-- A partial update returned by an interview sub-graph node.  The keys are
exactly those occurring in some interview node's return dict:
`generate_question` and `generate_answer` write `messages`, `search_web` and
`read_files` write `context`, `save_interview` writes `interview`, and
`write_section` writes `sections` (interview_agents.py).  No interview node
returns the key `files_urls_browse`. -/
structure InterviewUpdate where
  messages : Option (List Msg) := none
  context : Option (List (List CtxDoc)) := none
  interview : Option String := none
  sections : Option (List String) := none
deriving Repr

/-- Applying an interview node's partial update to `InterviewState`:
`messages` merges through the `MessagesState` reducer (append of the new
messages), `context` through its `operator.add` annotation, and the
unannotated `interview` and `sections` fields are overwritten
(graph_classes.py). -/
def applyInterviewUpdate (s : InterviewState) (u : InterviewUpdate) : InterviewState :=
  { s with
    messages :=
      match u.messages with
      | none => s.messages
      | some ms => s.messages ++ ms
    context :=
      match u.context with
      | none => s.context
      | some cs => s.context ++ cs
    interview :=
      match u.interview with
      | none => s.interview
      | some i => some i
    sections :=
      match u.sections with
      | none => s.sections
      | some secs => secs }

/-- Python value of the `urls` / `files` fields
(`Optional[Union[bool, list[str]]]` in graph_classes.py). -/
inductive PyUrls
  | pybool (b : Bool)
  | pylist (l : List String)
deriving DecidableEq, Repr

/-- `ResearchGraphState` (graph_classes.py, lines 67-135).  Fields that can
hold Python `None` (or be absent and read through `state.get`) are `Option`s;
`timeout` is read as `state.get("timeout", False)`, so it is a `Bool`
defaulting to `false`. -/
structure ResearchGraphState where
  max_analysts : Option Nat := none
  human_analyst_feedback : Option String := none
  analysts : List Analyst := []
  sections : List String := []
  introduction_str : Option String := none
  index_str : Option String := none
  content : Option String := none
  conclusion_str : Option String := none
  draft_report : Option String := none
  context : List (List CtxDoc) := []
  analysis_feedback : Option String := none
  final_report : Option String := none
  u_input : Option String := none
  topic : Option String := none
  description : Option String := none
  report_type : Option String := none
  files_urls_browse : Option String := none
  index : Option Bool := none
  introduction : Option Bool := none
  conclusion : Option Bool := none
  source : Option Bool := none
  urls : Option PyUrls := none
  files : Option PyUrls := none
  browse_query : Option String := none
  timeout : Bool := false
  response_ts : Option String := none
deriving Repr

/-- `InputGraphState` (graph_classes.py, lines 25-64): state of the input
gathering sub-graph. -/
structure InputGraphState where
  u_input : Option String := none
  topic : Option String := none
  description : Option String := none
  report_type : Option String := none
  files_urls_browse : Option String := none
  index : Option Bool := none
  introduction : Option Bool := none
  conclusion : Option Bool := none
  source : Option Bool := none
  urls : Option PyUrls := none
  files : Option PyUrls := none
  browse_query : Option String := none
  timeout : Bool := false
deriving Repr

/-- One branch specification produced by the `Send` API: the target node name
and the branch's initial state dict (interview_agents.py, lines 258-277). -/
structure SendSpec where
  node : String
  files_urls_browse : Option String
  urls : Option PyUrls
  browse_query : Option String
  analyst : Analyst
  messages : List Msg
deriving DecidableEq, Repr

/-- Value returned by a conditional-edge dispatcher: a node name, the `END`
sentinel, or (for fan-out) a list of `Send` branch specifications. -/
inductive Route
  | node (name : String)
  | endRoute
  | sends (branches : List SendSpec)
deriving DecidableEq, Repr

/-- The kickoff `HumanMessage` content of one interview branch
(interview_agents.py, lines 267-273; the two adjacent f-string literals
concatenate without a space, producing "on thetopic:"). -/
def interviewKickoffContent (topic description : String) : String :=
  "So you said you were writing an article on the" ++ "topic: " ++ topic ++
  ". Description: " ++ description ++ "?"

/-- The branch dict sent to `conduct_interview` for one analyst
(interview_agents.py, lines 259-275). -/
def interviewSend (state : ResearchGraphState) (analyst : Analyst) : SendSpec :=
  { node := "conduct_interview"
    files_urls_browse := state.files_urls_browse
    urls := state.urls
    browse_query := state.browse_query
    analyst := analyst
    messages :=
      [{ role := MsgRole.human
         content := interviewKickoffContent (pyStr state.topic) (pyStr state.description) }] }

/-- `initiate_all_interviews` (interview_agents.py, lines 228-277): the
post-review conditional edge.  Checks `state.get('human_analyst_feedback')`
truthiness first, then `state.get("timeout", False)`, and otherwise maps the
`Send` API over `state["analysts"]`. -/
def initiate_all_interviews (state : ResearchGraphState) : Route :=
  let human_analyst_feedback := state.human_analyst_feedback
  if truthyStr human_analyst_feedback then
    Route.node "create_analysts"
  else if state.timeout then
    Route.endRoute
  else
    Route.sends (state.analysts.map (interviewSend state))

/-- Value of the two-tuple returned by `wait_for_feedback_periodically`:
either `(user_message, max_analysts)` for a found reply, or the literal
`(False, None)` on timeout. -/
inductive WaitReturn
  | reply (user_message : Option String) (max_analysts : Option Nat)
  | timedOut
deriving DecidableEq, Repr

/-- A partial update returned by the `human_feedback` node
(interview_agents.py, lines 158-225).  Keys not present in a given return
dict are `none`; all these fields have `OVERWRITE` policy. -/
structure RGUpdate where
  human_analyst_feedback : Option (Option String) := none
  response_ts : Option String := none
  timeout : Option Bool := none
  max_analysts : Option (Option Nat) := none
deriving Repr

/-- Applying a `human_feedback` partial update to the research graph state
(all touched fields are `OVERWRITE` policy in graph_classes.py). -/
def applyRGUpdate (s : ResearchGraphState) (u : RGUpdate) : ResearchGraphState :=
  { s with
    human_analyst_feedback := u.human_analyst_feedback.getD s.human_analyst_feedback
    response_ts :=
      match u.response_ts with
      | none => s.response_ts
      | some t => some t
    timeout := u.timeout.getD s.timeout
    max_analysts := u.max_analysts.getD s.max_analysts }

/-- `human_feedback` (interview_agents.py, lines 158-225), as a function of
the gateway's result: `feedback_text is None` means acceptance (records the
acknowledgement message's ts as `response_ts`), `feedback_text is False`
means timeout, anything else is regeneration feedback. -/
def human_feedback (wait_result : WaitReturn) (ack_ts : String) : RGUpdate :=
  match wait_result with
  | WaitReturn.reply none _ =>
      { human_analyst_feedback := some none, response_ts := some ack_ts }
  | WaitReturn.timedOut =>
      { timeout := some true }
  | WaitReturn.reply (some text) maxA =>
      { human_analyst_feedback := some (some text), max_analysts := some maxA }

/-- The `any(value is None for value in state.values())` scan of
`check_input_complete` over the input-graph fields. -/
def InputGraphState.anyNone (s : InputGraphState) : Bool :=
  s.u_input.isNone || s.topic.isNone || s.description.isNone ||
  s.report_type.isNone || s.files_urls_browse.isNone || s.index.isNone ||
  s.introduction.isNone || s.conclusion.isNone || s.source.isNone ||
  s.urls.isNone || s.files.isNone || s.browse_query.isNone

/-- `check_input_complete` (input_agents.py, lines 411-429). -/
def check_input_complete (state : InputGraphState) : Route :=
  if state.timeout then Route.endRoute
  else if state.anyNone then Route.node "extract_info"
  else Route.endRoute

/-- `if_timeout` (writer_agents.py, lines 61-76). -/
def if_timeout (state : ResearchGraphState) : Route :=
  if state.timeout then Route.endRoute
  else Route.node "create_analysts"

/-- Outcome of the driver after `graph.invoke` returns. -/
inductive DriverResult
  | timedOutExit
  | delivered (docx_file_path : String)
  | unboundLocalError (var : String)
deriving DecidableEq, Repr

/-- The recursion limit passed in the `config` dict of
`report_agentic_workflow` (workflow.py, line 57). -/
def recursion_limit : Nat := 50

/-- The tail of `report_agentic_workflow` (workflow.py, lines 64-91) after
`graph.invoke` returns, as a function of the final checkpointed state.  If
the timeout flag is set, the driver exits before touching the report.
Otherwise `docx_file_path` is assigned only inside the `if final_report:`
branch, while `Path(docx_file_path).unlink()` runs unconditionally after it,
so a falsy `final_report` reaches the unlink with the local unbound
(Python `UnboundLocalError`).  `save_docx` abstracts `save_report_to_docx`
(the external document exporter), returning the rendered file's path. -/
def report_agentic_workflow_tail (final_state : ResearchGraphState)
    (save_docx : String → String) : DriverResult :=
  if final_state.timeout then
    DriverResult.timedOutExit
  else
    let final_report := final_state.final_report
    if truthyStr final_report then
      let docx_file_path := save_docx (pyStr final_report)
      DriverResult.delivered docx_file_path
    else
      DriverResult.unboundLocalError "docx_file_path"

/-- Error raised by the graph runtime when the step ceiling is exhausted. -/
inductive GraphError
  | recursionLimitExceeded (steps : Nat)
deriving DecidableEq, Repr

/-- Modelled from the spec: the graph runtime's execution loop with its step
ceiling (section 4.2).  The runtime itself is provided by the langgraph
library, whose source is not under src/; the spec describes it as a loop
that runs one node per iteration and raises `RecursionLimitExceeded` when
the global step ceiling is exhausted.  `step` maps a state to the next state,
or `none` once the terminal node is reached; the result carries the number of
executed steps. -/
def runGraphAux {σ : Type} (step : σ → Option σ) :
    Nat → Nat → σ → Except GraphError (Nat × σ)
  | 0, stepsDone, s =>
    match step s with
    | none => Except.ok (stepsDone, s)
    | some _ => Except.error (GraphError.recursionLimitExceeded stepsDone)
  | remaining + 1, stepsDone, s =>
    match step s with
    | none => Except.ok (stepsDone, s)
    | some t => runGraphAux step remaining (stepsDone + 1) t

/-- Modelled from the spec: a whole run of the graph runtime under a step
ceiling (`recursion_limit` in the invocation config). -/
def runGraph {σ : Type} (step : σ → Option σ) (limit : Nat) (s : σ) :
    Except GraphError (Nat × σ) :=
  runGraphAux step limit 0 s

/-- `operator.add` on lists: the reducer annotated on the APPEND-policy
fields `sections` and `context` of `ResearchGraphState`
(graph_classes.py, lines 113 and 119). -/
def operatorAdd {α : Type} (existing update : List α) : List α :=
  existing ++ update

/-- A sequence of partial updates to an APPEND-policy field, applied in
application order through the field's reducer. -/
def applySectionUpdates (init : List String) (updates : List (List String)) :
    List String :=
  updates.foldl operatorAdd init

/-- Modelled from the spec: the fan-in join of the graph runtime (the
langgraph library, not under src/) merges the branch updates of an
APPEND-policy field through the field's reducer in branch-index order,
regardless of the order in which the branches completed (sections 4.3
and 5).  `arrivals` pairs each branch index with that branch's update,
listed in completion order; `n` is the number of branches. -/
def joinByIndex (init : List String) (arrivals : List (Nat × List String))
    (n : Nat) : List String :=
  (List.range n).foldl
    (fun acc i =>
      match arrivals.find? (fun a => a.1 == i) with
      | some a => operatorAdd acc a.2
      | none => acc)
    init

/-- A message of a Slack thread as seen by `conversations_replies`:
timestamp, optional author id (`message.get("user")`) and optional text
(`message.get('text')`). -/
structure SlackMessage where
  ts : Nat
  user : Option String := none
  text : Option String := none
deriving DecidableEq, Repr

/-- The qualification test of `capture_human_feedback`
(input_agents.py, lines 321-326): the message has a truthy author, the
author is not the bot, the message is not the initial thread message, and
it is strictly newer than `latest_ts` (or `latest_ts is None`). -/
def messageQualifies (thread_ts : Nat) (slack_bot_user_id : String)
    (latest_ts : Option Nat) (m : SlackMessage) : Bool :=
  truthyStr m.user && m.user != some slack_bot_user_id && m.ts != thread_ts &&
    (match latest_ts with
     | none => true
     | some lt => decide (lt < m.ts))

/-- The `for message in reversed(response['messages'])` scan of
`capture_human_feedback` (input_agents.py, lines 318-333): return on the
first qualifying message; for `state == "analysts"` the text goes through
`extract_new_info` (an LLM call, passed as an oracle), otherwise the raw
text is returned. -/
def captureScan (thread_ts : Nat) (slack_bot_user_id : String)
    (latest_ts : Option Nat) (state : String)
    (extract_new_info : Option String → Option Nat × Option String) :
    List SlackMessage → Bool × Option String × Option Nat
  | [] => (false, none, none)
  | m :: rest =>
    if messageQualifies thread_ts slack_bot_user_id latest_ts m then
      let user_message := m.text
      if state == "analysts" then
        let r := extract_new_info user_message
        (true, r.2, r.1)
      else
        (true, user_message, none)
    else
      captureScan thread_ts slack_bot_user_id latest_ts state extract_new_info rest

/-- `capture_human_feedback` (input_agents.py, lines 272-338): scans the
thread's messages latest-first and returns `(found, user_message,
max_analysts)`; `(False, None, None)` when no new qualifying message
exists. -/
def capture_human_feedback (messages : List SlackMessage) (thread_ts : Nat)
    (slack_bot_user_id : String) (latest_ts : Option Nat) (state : String)
    (extract_new_info : Option String → Option Nat × Option String) :
    Bool × Option String × Option Nat :=
  captureScan thread_ts slack_bot_user_id latest_ts state extract_new_info
    messages.reverse

/-- Observable outcome of one call to `wait_for_feedback_periodically`:
the returned tuple, the elapsed wait time (the `elapsed_time` variable, the
sum of the sleeps performed) at return, and the number of timeout
notifications posted to the channel. -/
structure WaitOutcome where
  result : WaitReturn
  elapsed : Nat
  timeout_posts : Nat
deriving DecidableEq, Repr

/-- The `while elapsed_time < max_wait_time` loop of
`wait_for_feedback_periodically` (input_agents.py, lines 379-408).
`thread k` gives the messages visible to the k-th poll.  One fuel unit is
consumed per loop iteration; `none` models a loop still running after
`fuel` iterations (which happens only when `check_interval = 0`).  On
finding a reply the function returns before sleeping, so `elapsed` is
unchanged by the final iteration; on timeout it posts the one timeout
message and returns `(False, None)`. -/
def waitFrom (thread : Nat → List SlackMessage) (thread_ts : Nat)
    (slack_bot_user_id : String) (latest_ts : Option Nat)
    (max_wait_time check_interval : Nat) (state : String)
    (extract_new_info : Option String → Option Nat × Option String)
    (fuel elapsed k : Nat) : Option WaitOutcome :=
  if elapsed < max_wait_time then
    match fuel with
    | 0 => none
    | f + 1 =>
      let r := capture_human_feedback (thread k) thread_ts slack_bot_user_id
        latest_ts state extract_new_info
      if r.1 && state == "analysts" then
        some ⟨WaitReturn.reply r.2.1 r.2.2, elapsed, 0⟩
      else if r.1 && state == "info" then
        some ⟨WaitReturn.reply r.2.1 none, elapsed, 0⟩
      else
        waitFrom thread thread_ts slack_bot_user_id latest_ts max_wait_time
          check_interval state extract_new_info f (elapsed + check_interval)
          (k + 1)
  else
    some ⟨WaitReturn.timedOut, elapsed, 1⟩

/-- `wait_for_feedback_periodically` (input_agents.py, lines 341-408), with
the source's defaults `max_wait_time = 180`, `check_interval = 3`,
`state = "info"`. -/
def wait_for_feedback_periodically (thread : Nat → List SlackMessage)
    (thread_ts : Nat) (slack_bot_user_id : String) (latest_ts : Option Nat)
    (extract_new_info : Option String → Option Nat × Option String)
    (fuel : Nat) (max_wait_time : Nat := 180) (check_interval : Nat := 3)
    (state : String := "info") : Option WaitOutcome :=
  waitFrom thread thread_ts slack_bot_user_id latest_ts max_wait_time
    check_interval state extract_new_info fuel 0 0

/-- A concrete two-message transcript: a question containing the closing
phrase followed by one expert answer. -/
def shortInterviewMessages : List Msg :=
  [{ role := MsgRole.ai, name := some "question",
     content := "Thank you so much for your help" },
   { role := MsgRole.ai, name := some "expert",
     content := "You are welcome." }]

/-- A concrete analyst persona. -/
def annAnalyst : Analyst :=
  { affiliation := "A", name := "Ann", role := "r0", description := "d0" }

/-- A second concrete analyst persona. -/
def benAnalyst : Analyst :=
  { affiliation := "B", name := "Ben", role := "r1", description := "d1" }

/-- A concrete reviewed research-graph state with two analysts, empty
feedback and no timeout. -/
def twoAnalystState : ResearchGraphState :=
  { analysts := [annAnalyst, benAnalyst]
    topic := some "T"
    description := some "D"
    files_urls_browse := some "browse"
    browse_query := some "q" }

/-- An extraction oracle that finds neither an analyst count nor new text. -/
def emptyExtract : Option String → Option Nat × Option String :=
  fun _ => (none, none)

/-- A concrete thread where only non-qualifying messages exist: the initial
thread message, a bot message, a message at the after-marker, and an
authorless message. -/
def staleMsgs : List SlackMessage :=
  [{ ts := 0, user := some "U", text := some "initial" },
   { ts := 7, user := some "B", text := some "from the bot" },
   { ts := 10, user := some "U", text := some "already seen" },
   { ts := 11, user := none, text := some "authorless" }]

/-- A concrete thread mixing one qualifying user reply with a later bot
message. -/
def mixedMsgs : List SlackMessage :=
  [{ ts := 12, user := some "U2", text := some "yes" },
   { ts := 13, user := some "B", text := some "ask" }]

/-- A concrete poll oracle: nothing at the first poll, one qualifying user
message from the second poll on. -/
def demoThread : Nat → List SlackMessage :=
  fun k => if k = 0 then [] else [{ ts := 5, user := some "U", text := some "hi" }]

/-- The nodes of the main research graph, as registered in
`main_node_builder` (node_builder.py, lines 233-323), plus a terminal
configuration for the `END` sentinel. -/
inductive MainNode
  | gather_info
  | create_analysts
  | send_slack
  | human_feedback
  | conduct_interview
  | write_report
  | write_introduction
  | write_conclusion
  | write_index
  | draft_report_gen
  | analyse_report
  | final_report_gen
  | terminal
deriving DecidableEq, Repr

/-- The external-collaborator results consumed along a main-graph run,
indexed by step: the analysts produced by the language model, the gateway's
result at each review, and the text each writer node produces. -/
structure MainOracle where
  analystsOut : Nat → List Analyst
  waitResult : Nat → WaitReturn
  ackTs : Nat → String
  sectionsOut : Nat → List String
  contextOut : Nat → List (List CtxDoc)
  contentOut : Nat → String
  introOut : Nat → String
  conclOut : Nat → String
  indexOut : Nat → String
  draftOut : Nat → String
  analysisOut : Nat → String
  finalOut : Nat → String

/-- `create_analysts` (interview_agents.py, lines 76-111) writes only the
`analysts` key: `{'analysts': ''}` (an empty value) when the timeout flag is
set, and the language model's analysts otherwise. -/
def create_analysts_node (s : ResearchGraphState) (llm_analysts : List Analyst) :
    ResearchGraphState :=
  if s.timeout then { s with analysts := [] }
  else { s with analysts := llm_analysts }

/-- The fan-out/fan-in of `conduct_interview`: the joined branch updates
reach the parent state only through the APPEND reducers of `sections` and
`context` (graph_classes.py); no branch update carries any other key of the
parent schema. -/
def conduct_interview_node (s : ResearchGraphState) (secs : List String)
    (ctxs : List (List CtxDoc)) : ResearchGraphState :=
  { s with sections := s.sections ++ secs, context := s.context ++ ctxs }

/-- `write_report` (writer_agents.py) returns `{"content": ...}` only. -/
def write_report_node (s : ResearchGraphState) (c : String) : ResearchGraphState :=
  { s with content := some c }

/-- `write_introduction` returns `{"introduction_str": ...}` only. -/
def write_introduction_node (s : ResearchGraphState) (c : String) :
    ResearchGraphState :=
  { s with introduction_str := some c }

/-- `write_conclusion` returns `{"conclusion_str": ...}` only. -/
def write_conclusion_node (s : ResearchGraphState) (c : String) :
    ResearchGraphState :=
  { s with conclusion_str := some c }

/-- `write_index` returns `{"index_str": ...}` only. -/
def write_index_node (s : ResearchGraphState) (c : String) : ResearchGraphState :=
  { s with index_str := some c }

/-- `draft_report` returns `{"draft_report": ...}` only. -/
def draft_report_node (s : ResearchGraphState) (c : String) : ResearchGraphState :=
  { s with draft_report := some c }

/-- `analyse_report` returns `{"analysis_feedback": ...}` only. -/
def analyse_report_node (s : ResearchGraphState) (c : String) :
    ResearchGraphState :=
  { s with analysis_feedback := some c }

/-- `final_report` (writer_agents.py, lines 393-444) is the one node of the
main graph returning `{"final_report": ...}`. -/
def final_report_node (s : ResearchGraphState) (c : String) : ResearchGraphState :=
  { s with final_report := some c }

/-- One step of the main graph.  A configuration pairs the node whose update
was last applied with the current state; a step resolves that node's
outgoing edge — the static edges and the conditional dispatchers
(`if_timeout`, `initiate_all_interviews`) exactly as wired in
`main_node_builder` (node_builder.py, lines 286-323) — and applies the
successor node's partial update, whose key footprint is taken from that
node's return dict in the source.  The execution loop itself (run node,
apply update, follow edge) is the langgraph runtime, modelled from the
spec's description of the Graph Runtime; the
`write_report → {introduction, conclusion} → index → draft` barrier chain is
sequentialized in one topological order, which is sound here because these
nodes write disjoint keys. -/
def mainStep (o : MainOracle) (t : Nat) :
    MainNode × ResearchGraphState → Option (MainNode × ResearchGraphState)
  | (MainNode.gather_info, s) =>
    match if_timeout s with
    | Route.endRoute => some (MainNode.terminal, s)
    | _ => some (MainNode.create_analysts, create_analysts_node s (o.analystsOut t))
  | (MainNode.create_analysts, s) => some (MainNode.send_slack, s)
  | (MainNode.send_slack, s) =>
    some (MainNode.human_feedback,
      applyRGUpdate s (human_feedback (o.waitResult t) (o.ackTs t)))
  | (MainNode.human_feedback, s) =>
    match initiate_all_interviews s with
    | Route.node _ =>
      some (MainNode.create_analysts, create_analysts_node s (o.analystsOut t))
    | Route.endRoute => some (MainNode.terminal, s)
    | Route.sends _ =>
      some (MainNode.conduct_interview,
        conduct_interview_node s (o.sectionsOut t) (o.contextOut t))
  | (MainNode.conduct_interview, s) =>
    some (MainNode.write_report, write_report_node s (o.contentOut t))
  | (MainNode.write_report, s) =>
    some (MainNode.write_introduction, write_introduction_node s (o.introOut t))
  | (MainNode.write_introduction, s) =>
    some (MainNode.write_conclusion, write_conclusion_node s (o.conclOut t))
  | (MainNode.write_conclusion, s) =>
    some (MainNode.write_index, write_index_node s (o.indexOut t))
  | (MainNode.write_index, s) =>
    some (MainNode.draft_report_gen, draft_report_node s (o.draftOut t))
  | (MainNode.draft_report_gen, s) =>
    some (MainNode.analyse_report, analyse_report_node s (o.analysisOut t))
  | (MainNode.analyse_report, s) =>
    some (MainNode.final_report_gen, final_report_node s (o.finalOut t))
  | (MainNode.final_report_gen, s) => some (MainNode.terminal, s)
  | (MainNode.terminal, _) => none

/-- `n` steps of the main graph from a configuration, threading the step
index for the oracle. -/
def mainRun (o : MainOracle) : Nat → Nat → MainNode × ResearchGraphState →
    MainNode × ResearchGraphState
  | _, 0, c => c
  | t, n + 1, c =>
    match mainStep o t c with
    | none => c
    | some c' => mainRun o (t + 1) n c'

/-- The configurations a timed-out run can sit in: the analyst
creation/review loop and the terminal; in particular not
`final_report_gen`. -/
def loopNode : MainNode → Bool
  | MainNode.gather_info => true
  | MainNode.create_analysts => true
  | MainNode.send_slack => true
  | MainNode.human_feedback => true
  | MainNode.terminal => true
  | _ => false

/-- A constant oracle for concrete runs. -/
def constOracle : MainOracle :=
  { analystsOut := fun _ => [annAnalyst]
    waitResult := fun _ => WaitReturn.timedOut
    ackTs := fun _ => "1"
    sectionsOut := fun _ => ["s"]
    contextOut := fun _ => []
    contentOut := fun _ => "c"
    introOut := fun _ => "i"
    conclOut := fun _ => "k"
    indexOut := fun _ => "x"
    draftOut := fun _ => "d"
    analysisOut := fun _ => "a"
    finalOut := fun _ => "f" }

/-- A timed-out state still carrying stale non-empty reviewer feedback. -/
def staleFeedbackState : ResearchGraphState :=
  { timeout := true, human_analyst_feedback := some "Make them broader." }

theorem foldl_operatorAdd_eq (updates : List (List String)) (init : List String) :
    updates.foldl operatorAdd init = init ++ updates.flatten := by
  induction updates generalizing init with
  | nil => simp
  | cons u us ih =>
    simp [List.foldl_cons, ih, operatorAdd, List.append_assoc]

theorem flatten_map_singleton {α β : Type} (l : List α) (g : α → β) :
    (l.map (fun a => [g a])).flatten = l.map g := by
  induction l with
  | nil => rfl
  | cons a t ih => simp [ih]

theorem find?_of_perm_range (n : Nat) (f : Nat → List String)
    (arrivals : List (Nat × List String))
    (hperm : arrivals.Perm ((List.range n).map (fun i => (i, f i))))
    (i : Nat) (hi : i < n) :
    arrivals.find? (fun a => a.1 == i) = some (i, f i) := by
  have hmem : (i, f i) ∈ arrivals := by
    rw [hperm.mem_iff]
    exact List.mem_map.mpr ⟨i, List.mem_range.mpr hi, rfl⟩
  cases hfind : arrivals.find? (fun a => a.1 == i) with
  | none =>
    exact absurd (List.find?_eq_none.mp hfind _ hmem) (by simp)
  | some x =>
    have hx : x ∈ arrivals := List.mem_of_find?_eq_some hfind
    have hpx : x.1 = i := by
      have := List.find?_some hfind
      simpa using this
    have hx0 : x ∈ (List.range n).map (fun i => (i, f i)) := hperm.mem_iff.mp hx
    obtain ⟨j, _, hj⟩ := List.mem_map.mp hx0
    have : x = (i, f i) := by
      subst hj
      simp at hpx
      subst hpx
      rfl
    rw [this]

theorem joinByIndex_of_find? (f : Nat → List String)
    (arrivals : List (Nat × List String)) (init : List String) :
    ∀ n, (∀ i, i < n → arrivals.find? (fun a => a.1 == i) = some (i, f i)) →
      joinByIndex init arrivals n = init ++ ((List.range n).map f).flatten := by
  intro n
  induction n with
  | zero => intro _; simp [joinByIndex]
  | succ m ih =>
    intro h
    have hm : joinByIndex init arrivals m = init ++ ((List.range m).map f).flatten :=
      ih (fun i hi => h i (Nat.lt_succ_of_lt hi))
    unfold joinByIndex at hm ⊢
    rw [List.range_succ, List.foldl_append, hm]
    simp [h m (Nat.lt_succ_self m), operatorAdd, List.range_succ]

/-- C1: for every sequence of partial updates, an APPEND-policy field
(`sections` / `context` with `operator.add`) equals the concatenation of the
updates in application order; and for every fan-out run with `n` branches
each contributing one section through `write_section`, the joined `sections`
list is the per-branch sections in branch-index order, regardless of the
completion (arrival) order of the branches. -/
theorem append_policy_order_law :
    (∀ (init : List String) (updates : List (List String)),
      applySectionUpdates init updates = init ++ updates.flatten) ∧
    (∀ (n : Nat) (sec : Nat → String) (arrivals : List (Nat × List String)),
      arrivals.Perm ((List.range n).map (fun i => (i, write_section (sec i)))) →
      joinByIndex [] arrivals n = (List.range n).map sec) := by
  constructor
  · intro init updates
    exact foldl_operatorAdd_eq updates init
  · intro n sec arrivals hperm
    have h := joinByIndex_of_find? (fun i => write_section (sec i)) arrivals [] n
      (fun i hi => find?_of_perm_range n (fun i => write_section (sec i)) arrivals hperm i hi)
    rw [h]
    simp [write_section, flatten_map_singleton]

/-- C1 witness: three branches contributing "S0", "S1", "S2", completing in
reversed order, still join to ["S0", "S1", "S2"]. -/
theorem append_policy_order_law_witness :
    applySectionUpdates ["S0"] [["S1"], ["S2"]] = ["S0", "S1", "S2"] ∧
    joinByIndex [] [(2, write_section "S2"), (0, write_section "S0"),
      (1, write_section "S1")] 3 = ["S0", "S1", "S2"] := by
  refine ⟨append_policy_order_law.1 ["S0"] [["S1"], ["S2"]], ?_⟩
  have h := append_policy_order_law.2 3 (fun i => ["S0", "S1", "S2"].getD i "")
    [(2, write_section "S2"), (0, write_section "S0"), (1, write_section "S1")]
    (by decide)
  simpa using h

theorem runGraphAux_always_step {σ : Type} (step : σ → Option σ) (f : σ → σ)
    (hstep : ∀ s, step s = some (f s)) :
    ∀ (r k : Nat) (s : σ), runGraphAux step r k s =
      Except.error (GraphError.recursionLimitExceeded (k + r)) := by
  intro r
  induction r with
  | zero => intro k s; simp [runGraphAux, hstep]
  | succ m ih =>
    intro k s
    rw [runGraphAux.eq_def]
    simp only [hstep]
    rw [ih (k + 1) (f s)]
    have h1 : k + 1 + m = k + (m + 1) := by omega
    rw [h1]

/-- C7: the workflow is invoked with a global step ceiling of 50
(`recursion_limit = 50` in workflow.py's config), shared by the whole graph;
the regeneration loop is driven through `initiate_all_interviews`, which
routes back to `create_analysts` whenever feedback is present (no separate
loop counter); and a run whose dispatcher keeps stepping on every iteration
raises `RecursionLimitExceeded` at exactly `recursion_limit` steps, never
earlier or later. -/
theorem recursion_limit_exact :
    recursion_limit = 50 ∧
    (∀ (σ : Type) (step : σ → Option σ) (f : σ → σ) (s0 : σ),
      (∀ s, step s = some (f s)) →
      runGraph step recursion_limit s0 =
        Except.error (GraphError.recursionLimitExceeded recursion_limit)) ∧
    (∀ state : ResearchGraphState,
      truthyStr state.human_analyst_feedback = true →
      initiate_all_interviews state = Route.node "create_analysts") := by
  refine ⟨rfl, ?_, ?_⟩
  · intro σ step f s0 hstep
    have h := runGraphAux_always_step step f hstep recursion_limit 0 s0
    simpa [runGraph] using h
  · intro state h
    simp [initiate_all_interviews, h]

/-- C7 witness: a dispatcher that always steps exhausts the ceiling at
exactly 50 steps; a state carrying non-empty feedback loops back to
analyst creation. -/
theorem recursion_limit_exact_witness :
    runGraph (fun n : Nat => some (n + 1)) recursion_limit 0 =
      Except.error (GraphError.recursionLimitExceeded recursion_limit) ∧
    initiate_all_interviews
      ({ human_analyst_feedback := some "One more analyst, please." } :
        ResearchGraphState) = Route.node "create_analysts" := by
  constructor
  · exact recursion_limit_exact.2.1 Nat (fun n => some (n + 1)) (fun n => n + 1) 0
      (fun _ => rfl)
  · exact recursion_limit_exact.2.2 _ (by decide)

/-- C4 counterexample: with only two messages, the next-to-last message
(`messages[-2]`) contains the fixed closing phrase and the expert-response
count is below the maximum, yet `route_messages` returns "ask_question": the
closing-phrase check is guarded by `len(messages) >= 4`, so the claim as
stated fails here. -/
theorem route_messages_counterexample :
    containsSub "Thank you so much for your help"
      ((shortInterviewMessages.getD (shortInterviewMessages.length - 2)
        defaultMsg).content) = true ∧
    (shortInterviewMessages.filter
        (fun m => m.role == MsgRole.ai && m.name == some "expert")).length <
      (({ messages := shortInterviewMessages } :
        InterviewState).max_num_turns.getD 4) ∧
    route_messages ({ messages := shortInterviewMessages } : InterviewState) =
      "ask_question" := by
  decide

/-- C4 amended: `route_messages` returns "save_interview" whenever the count
of AI messages named "expert" reaches `max_num_turns` (default 4); it also
returns "save_interview" when there are at least 4 messages and the
next-to-last message contains the fixed closing phrase; in all other cases
it returns "ask_question". -/
theorem route_messages_cases (state : InterviewState) :
    ((state.messages.filter
        (fun m => m.role == MsgRole.ai && m.name == some "expert")).length ≥
      state.max_num_turns.getD 4 →
      route_messages state = "save_interview") ∧
    ((state.messages.filter
        (fun m => m.role == MsgRole.ai && m.name == some "expert")).length <
      state.max_num_turns.getD 4 →
      4 ≤ state.messages.length →
      containsSub "Thank you so much for your help"
        ((state.messages.getD (state.messages.length - 2) defaultMsg).content) =
        true →
      route_messages state = "save_interview") ∧
    ((state.messages.filter
        (fun m => m.role == MsgRole.ai && m.name == some "expert")).length <
      state.max_num_turns.getD 4 →
      (state.messages.length < 4 ∨
        containsSub "Thank you so much for your help"
          ((state.messages.getD (state.messages.length - 2) defaultMsg).content) =
          false) →
      route_messages state = "ask_question") := by
  unfold route_messages
  refine ⟨?_, ?_, ?_⟩
  · intro h
    simp [h]
  · intro h1 h2 h3
    simp only [List.getD, List.get?_eq_getElem?] at h3
    simp [Nat.not_le.mpr h1, h2, h3]
  · intro h1 h2
    rcases h2 with h2 | h2
    · simp [Nat.not_le.mpr h1, Nat.not_le.mpr h2]
    · by_cases h4 : 4 ≤ state.messages.length
      · simp only [List.getD, List.get?_eq_getElem?] at h2
        simp [Nat.not_le.mpr h1, h4, h2]
      · simp [Nat.not_le.mpr h1, h4]

/-- C4 witness: four messages ending in an expert answer whose preceding
question contains the closing phrase route to "save_interview"; without the
phrase they route to "ask_question"; four expert answers route to
"save_interview" by the turn ceiling. -/
theorem route_messages_cases_witness :
    route_messages ({ messages := [
        { role := MsgRole.human }, { role := MsgRole.ai, name := some "expert" },
        { role := MsgRole.ai, name := some "question",
          content := "Thank you so much for your help" },
        { role := MsgRole.ai, name := some "expert" } ] } : InterviewState) =
      "save_interview" ∧
    route_messages ({ messages := [
        { role := MsgRole.human }, { role := MsgRole.ai, name := some "expert" },
        { role := MsgRole.ai, name := some "question", content := "More?" },
        { role := MsgRole.ai, name := some "expert" } ] } : InterviewState) =
      "ask_question" ∧
    route_messages ({ messages := [
        { role := MsgRole.ai, name := some "expert" },
        { role := MsgRole.ai, name := some "expert" },
        { role := MsgRole.ai, name := some "expert" },
        { role := MsgRole.ai, name := some "expert" } ] } : InterviewState) =
      "save_interview" := by
  refine ⟨(route_messages_cases _).2.1 (by decide) (by decide) (by decide),
    (route_messages_cases _).2.2 (by decide) (Or.inr (by decide)),
    (route_messages_cases _).1 (by decide)⟩

/-- C5: the post-review dispatcher returns the analyst-creation node exactly
when `human_analyst_feedback` is truthy (non-empty), returns the terminal
sentinel when (feedback being empty) the timeout flag is set, and otherwise
fans out one `Send` per analyst, the i-th carrying the i-th analyst plus the
shared topic, description, evidence-mode, urls and browse-query fields; a
plain acceptance (the gateway returning a `None` feedback text) resolves
`human_analyst_feedback` to `None` and proceeds directly to fan-out. -/
theorem initiate_all_interviews_cases :
    (∀ state : ResearchGraphState,
      initiate_all_interviews state = Route.node "create_analysts" ↔
        truthyStr state.human_analyst_feedback = true) ∧
    (∀ state : ResearchGraphState,
      truthyStr state.human_analyst_feedback = false → state.timeout = true →
      initiate_all_interviews state = Route.endRoute) ∧
    (∀ state : ResearchGraphState,
      truthyStr state.human_analyst_feedback = false → state.timeout = false →
      initiate_all_interviews state =
        Route.sends (state.analysts.map (interviewSend state))) ∧
    (∀ (state : ResearchGraphState) (ack_ts : String) (maxA : Option Nat),
      state.timeout = false →
      (applyRGUpdate state
          (human_feedback (WaitReturn.reply none maxA) ack_ts)).human_analyst_feedback =
        none ∧
      initiate_all_interviews
          (applyRGUpdate state (human_feedback (WaitReturn.reply none maxA) ack_ts)) =
        Route.sends (state.analysts.map (interviewSend state))) := by
  refine ⟨?_, ?_, ?_, ?_⟩
  · intro state
    constructor
    · intro h
      by_contra hf
      have hf' : truthyStr state.human_analyst_feedback = false :=
        Bool.not_eq_true _ ▸ Bool.eq_false_iff.mpr hf
      by_cases ht : state.timeout <;> simp [initiate_all_interviews, hf', ht] at h
    · intro h
      simp [initiate_all_interviews, h]
  · intro state h1 h2
    simp [initiate_all_interviews, h1, h2]
  · intro state h1 h2
    simp [initiate_all_interviews, h1, h2]
  · intro state ack_ts maxA ht
    have hfb : (applyRGUpdate state
        (human_feedback (WaitReturn.reply none maxA) ack_ts)).human_analyst_feedback =
        none := rfl
    refine ⟨hfb, ?_⟩
    have ht' : (applyRGUpdate state
        (human_feedback (WaitReturn.reply none maxA) ack_ts)).timeout = false := ht
    simp [initiate_all_interviews, hfb, truthyStr, ht']
    rfl

/-- C5 witness: a two-analyst state with empty feedback and no timeout fans
out one `Send` per analyst in order; with the timeout flag it routes to the
terminal sentinel; with feedback text it loops back to analyst creation. -/
theorem initiate_all_interviews_cases_witness :
    initiate_all_interviews twoAnalystState =
      Route.sends [interviewSend twoAnalystState annAnalyst,
        interviewSend twoAnalystState benAnalyst] ∧
    initiate_all_interviews ({ timeout := true } : ResearchGraphState) =
      Route.endRoute ∧
    (initiate_all_interviews
        ({ human_analyst_feedback := some "redo" } : ResearchGraphState) =
      Route.node "create_analysts") := by
  refine ⟨initiate_all_interviews_cases.2.2.1 _ (by decide) (by decide),
    initiate_all_interviews_cases.2.1 _ (by decide) (by decide),
    (initiate_all_interviews_cases.1 _).mpr (by decide)⟩

/-- C6 counterexample: a reachable state with the timeout flag set but stale
non-empty `human_analyst_feedback` (feedback round followed by a timed-out
review, since neither `create_analysts` nor `human_feedback` clears the
feedback field) makes `initiate_all_interviews` route to "create_analysts",
not to the terminal sentinel: the feedback check precedes the timeout
check. -/
theorem timeout_not_terminal_counterexample :
    ({ timeout := true, human_analyst_feedback := some "Make them broader." } :
        ResearchGraphState).timeout = true ∧
    initiate_all_interviews
        ({ timeout := true, human_analyst_feedback := some "Make them broader." } :
          ResearchGraphState) = Route.node "create_analysts" ∧
    initiate_all_interviews
        ({ timeout := true, human_analyst_feedback := some "Make them broader." } :
          ResearchGraphState) ≠ Route.endRoute := by
  decide

theorem mainStep_timeout_inv (o : MainOracle) (t : Nat) (nd : MainNode)
    (s : ResearchGraphState) (hn : loopNode nd = true) (ht : s.timeout = true) :
    ∀ nd' s', mainStep o t (nd, s) = some (nd', s') →
      loopNode nd' = true ∧ s'.timeout = true ∧
      s'.final_report = s.final_report := by
  intro nd' s' hstep
  cases nd with
  | gather_info =>
    have hroute : if_timeout s = Route.endRoute := by simp [if_timeout, ht]
    rw [mainStep, hroute] at hstep
    obtain ⟨rfl, rfl⟩ := Prod.mk.injEq .. ▸ Option.some.injEq .. ▸ hstep
    exact ⟨rfl, ht, rfl⟩
  | create_analysts =>
    rw [mainStep] at hstep
    obtain ⟨rfl, rfl⟩ := Prod.mk.injEq .. ▸ Option.some.injEq .. ▸ hstep
    exact ⟨rfl, ht, rfl⟩
  | send_slack =>
    rw [mainStep] at hstep
    obtain ⟨rfl, rfl⟩ := Prod.mk.injEq .. ▸ Option.some.injEq .. ▸ hstep
    refine ⟨rfl, ?_, rfl⟩
    cases hw : o.waitResult t with
    | timedOut => simp [human_feedback, applyRGUpdate, hw]
    | reply pl ma =>
      cases pl <;> simp [human_feedback, applyRGUpdate, hw, ht]
  | human_feedback =>
    by_cases hf : truthyStr s.human_analyst_feedback = true
    · have hroute : initiate_all_interviews s = Route.node "create_analysts" := by
        simp [initiate_all_interviews, hf]
      rw [mainStep, hroute] at hstep
      obtain ⟨rfl, rfl⟩ := Prod.mk.injEq .. ▸ Option.some.injEq .. ▸ hstep
      refine ⟨rfl, ?_, ?_⟩ <;> simp [create_analysts_node, ht]
    · have hf' : truthyStr s.human_analyst_feedback = false :=
        Bool.not_eq_true _ ▸ Bool.eq_false_iff.mpr hf
      have hroute : initiate_all_interviews s = Route.endRoute := by
        simp [initiate_all_interviews, hf', ht]
      rw [mainStep, hroute] at hstep
      obtain ⟨rfl, rfl⟩ := Prod.mk.injEq .. ▸ Option.some.injEq .. ▸ hstep
      exact ⟨rfl, ht, rfl⟩
  | terminal => rw [mainStep] at hstep; cases hstep
  | conduct_interview => simp [loopNode] at hn
  | write_report => simp [loopNode] at hn
  | write_introduction => simp [loopNode] at hn
  | write_conclusion => simp [loopNode] at hn
  | write_index => simp [loopNode] at hn
  | draft_report_gen => simp [loopNode] at hn
  | analyse_report => simp [loopNode] at hn
  | final_report_gen => simp [loopNode] at hn

theorem mainRun_timeout_inv (o : MainOracle) :
    ∀ (n t : Nat) (nd : MainNode) (s : ResearchGraphState),
      loopNode nd = true → s.timeout = true →
      loopNode (mainRun o t n (nd, s)).1 = true ∧
      (mainRun o t n (nd, s)).2.timeout = true ∧
      (mainRun o t n (nd, s)).2.final_report = s.final_report := by
  intro n
  induction n with
  | zero => intro t nd s hn ht; exact ⟨hn, ht, rfl⟩
  | succ m ih =>
    intro t nd s hn ht
    rw [mainRun]
    cases hstep : mainStep o t (nd, s) with
    | none => exact ⟨hn, ht, rfl⟩
    | some c =>
      obtain ⟨nd', s'⟩ := c
      obtain ⟨h1, h2, h3⟩ := mainStep_timeout_inv o t nd s hn ht nd' s' hstep
      have hrec := ih (t + 1) nd' s' h1 h2
      exact ⟨hrec.1, hrec.2.1, hrec.2.2.trans h3⟩

/-- C6 amended: once the timeout flag is true, `check_input_complete` and
`if_timeout` route to the terminal sentinel; `initiate_all_interviews`
routes to the terminal sentinel provided `human_analyst_feedback` is
empty/absent (stale non-empty feedback instead loops to "create_analysts",
since the feedback check precedes the timeout check); in either case no
subsequent node writes the `final_report` field — every main-graph run from
a loop configuration with the flag set stays in the regeneration loop,
never executes `final_report_gen`, and leaves `final_report` unchanged —
and the driver `report_agentic_workflow` returns right after `graph.invoke`
without producing or delivering an artifact. -/
theorem timeout_routes_terminal :
    (∀ istate : InputGraphState, istate.timeout = true →
      check_input_complete istate = Route.endRoute) ∧
    (∀ state : ResearchGraphState, state.timeout = true →
      if_timeout state = Route.endRoute) ∧
    (∀ state : ResearchGraphState, state.timeout = true →
      truthyStr state.human_analyst_feedback = false →
      initiate_all_interviews state = Route.endRoute) ∧
    (∀ (o : MainOracle) (t n : Nat) (nd : MainNode)
        (state : ResearchGraphState),
      loopNode nd = true → state.timeout = true →
      loopNode (mainRun o t n (nd, state)).1 = true ∧
      (mainRun o t n (nd, state)).1 ≠ MainNode.final_report_gen ∧
      (mainRun o t n (nd, state)).2.final_report = state.final_report ∧
      (mainRun o t n (nd, state)).2.timeout = true) ∧
    (∀ (state : ResearchGraphState) (save_docx : String → String),
      state.timeout = true →
      report_agentic_workflow_tail state save_docx = DriverResult.timedOutExit ∧
      ∀ p, report_agentic_workflow_tail state save_docx ≠
        DriverResult.delivered p) := by
  refine ⟨?_, ?_, ?_, ?_, ?_⟩
  · intro istate h
    simp [check_input_complete, h]
  · intro state h
    simp [if_timeout, h]
  · intro state h1 h2
    simp [initiate_all_interviews, h1, h2]
  · intro o t n nd state hn ht
    obtain ⟨h1, h2, h3⟩ := mainRun_timeout_inv o n t nd state hn ht
    refine ⟨h1, ?_, h3, h2⟩
    intro hx
    rw [hx] at h1
    simp [loopNode] at h1
  · intro state save_docx h
    refine ⟨by simp [report_agentic_workflow_tail, h], ?_⟩
    intro p
    simp [report_agentic_workflow_tail, h]

/-- C6 amended witness: a timed-out state with empty feedback routes every
dispatcher to the terminal sentinel; six steps of the stale-feedback
regeneration loop under the flag never run `final_report_gen` and leave
`final_report` untouched; and the driver exits without an artifact. -/
theorem timeout_routes_terminal_witness :
    check_input_complete ({ timeout := true } : InputGraphState) =
      Route.endRoute ∧
    if_timeout ({ timeout := true } : ResearchGraphState) = Route.endRoute ∧
    initiate_all_interviews ({ timeout := true } : ResearchGraphState) =
      Route.endRoute ∧
    (mainRun constOracle 0 6 (MainNode.human_feedback, staleFeedbackState)).1 ≠
      MainNode.final_report_gen ∧
    (mainRun constOracle 0 6
        (MainNode.human_feedback, staleFeedbackState)).2.final_report =
      staleFeedbackState.final_report ∧
    report_agentic_workflow_tail ({ timeout := true } : ResearchGraphState)
        (fun _ => "report.docx") = DriverResult.timedOutExit := by
  refine ⟨timeout_routes_terminal.1 _ rfl, timeout_routes_terminal.2.1 _ rfl,
    timeout_routes_terminal.2.2.1 _ rfl (by decide),
    (timeout_routes_terminal.2.2.2.1 constOracle 0 6 MainNode.human_feedback
      staleFeedbackState (by decide) (by decide)).2.1,
    (timeout_routes_terminal.2.2.2.1 constOracle 0 6 MainNode.human_feedback
      staleFeedbackState (by decide) (by decide)).2.2.1,
    (timeout_routes_terminal.2.2.2.2 _ (fun _ => "report.docx") rfl).1⟩

/-- C8 counterexample: a `files_urls_browse` value containing both "browse"
and "files" contains "files" yet routes to "search_web", not
"read_information" — the `browse`/`urls` test precedes the `files` test. -/
theorem determine_search_path_counterexample :
    containsSub "files" "browse files" = true ∧
    determine_search_path ({ files_urls_browse := some "browse files" } :
        InterviewState) = some "search_web" ∧
    determine_search_path ({ files_urls_browse := some "browse files" } :
        InterviewState) ≠ some "read_information" := by
  decide

/-- C8 amended: `determine_search_path` depends only on the branch's
`files_urls_browse` field: a value containing "browse" or "urls" routes to
"search_web", a value containing "files" but neither "browse" nor "urls"
routes to "read_information"; and since no interview node's partial update
touches `files_urls_browse`, the dispatcher returns the same node on every
turn of a given branch. -/
theorem determine_search_path_static :
    (∀ s1 s2 : InterviewState, s1.files_urls_browse = s2.files_urls_browse →
      determine_search_path s1 = determine_search_path s2) ∧
    (∀ state : InterviewState,
      containsSub "browse" (state.files_urls_browse.getD "") = true ∨
        containsSub "urls" (state.files_urls_browse.getD "") = true →
      determine_search_path state = some "search_web") ∧
    (∀ state : InterviewState,
      containsSub "files" (state.files_urls_browse.getD "") = true →
      containsSub "browse" (state.files_urls_browse.getD "") = false →
      containsSub "urls" (state.files_urls_browse.getD "") = false →
      determine_search_path state = some "read_information") ∧
    (∀ (state : InterviewState) (updates : List InterviewUpdate),
      determine_search_path (updates.foldl applyInterviewUpdate state) =
        determine_search_path state) := by
  have hdep : ∀ s1 s2 : InterviewState,
      s1.files_urls_browse = s2.files_urls_browse →
      determine_search_path s1 = determine_search_path s2 := by
    intro s1 s2 h
    unfold determine_search_path
    rw [h]
  refine ⟨hdep, ?_, ?_, ?_⟩
  · intro state h
    rcases h with h | h <;> simp [determine_search_path, h]
  · intro state h1 h2 h3
    simp [determine_search_path, h1, h2, h3]
  · intro state updates
    induction updates generalizing state with
    | nil => rfl
    | cons u us ih =>
      rw [List.foldl_cons, ih (applyInterviewUpdate state u)]
      exact hdep _ _ rfl

/-- C8 witness: "browse" and "urls" modes route to web search, pure "files"
mode to local reading, and the route survives a message-appending and a
section-writing update. -/
theorem determine_search_path_static_witness :
    determine_search_path ({ files_urls_browse := some "urls" } :
        InterviewState) = some "search_web" ∧
    determine_search_path ({ files_urls_browse := some "files" } :
        InterviewState) = some "read_information" ∧
    determine_search_path
        ([({ messages := some [{ role := MsgRole.ai }] } : InterviewUpdate),
          ({ sections := some ["sec"] } : InterviewUpdate)].foldl
          applyInterviewUpdate
          ({ files_urls_browse := some "files" } : InterviewState)) =
      determine_search_path ({ files_urls_browse := some "files" } :
        InterviewState) := by
  refine ⟨determine_search_path_static.2.1 _ (Or.inr (by decide)),
    determine_search_path_static.2.2.1 _ (by decide) (by decide) (by decide),
    determine_search_path_static.2.2.2 _ _⟩

/-- C9: a run that finishes without the timeout flag but whose final state
has no truthy `final_report` hits the unconditional
`Path(docx_file_path).unlink()` with `docx_file_path` never assigned (it is
bound only inside the `if final_report:` branch), raising Python's
unbound-local-variable error. -/
theorem driver_unbound_local (state : ResearchGraphState)
    (save_docx : String → String) (h1 : state.timeout = false)
    (h2 : truthyStr state.final_report = false) :
    report_agentic_workflow_tail state save_docx =
      DriverResult.unboundLocalError "docx_file_path" := by
  simp [report_agentic_workflow_tail, h1, h2]

/-- C9 witness: an untimed-out final state with `final_report` absent raises
the unbound-local error at cleanup. -/
theorem driver_unbound_local_witness :
    report_agentic_workflow_tail ({ } : ResearchGraphState)
        (fun _ => "report.docx") =
      DriverResult.unboundLocalError "docx_file_path" :=
  driver_unbound_local ({ } : ResearchGraphState) (fun _ => "report.docx")
    rfl rfl

/-- C10: when `files_urls_browse` contains none of "browse", "urls",
"files", every branch of `determine_search_path` falls through and the
dispatcher returns `None` — there is no default route. -/
theorem determine_search_path_none (state : InterviewState)
    (h1 : containsSub "browse" (state.files_urls_browse.getD "") = false)
    (h2 : containsSub "urls" (state.files_urls_browse.getD "") = false)
    (h3 : containsSub "files" (state.files_urls_browse.getD "") = false) :
    determine_search_path state = none := by
  simp [determine_search_path, h1, h2, h3]

/-- C10 witness: the unrecognized mode "pdf" yields no successor node. -/
theorem determine_search_path_none_witness :
    determine_search_path ({ files_urls_browse := some "pdf" } :
        InterviewState) = none :=
  determine_search_path_none _ (by decide) (by decide) (by decide)

theorem captureScan_filter (tt : Nat) (bot : String) (latest : Option Nat)
    (st : String) (ex : Option String → Option Nat × Option String) :
    ∀ l : List SlackMessage,
      captureScan tt bot latest st ex l =
        captureScan tt bot latest st ex
          (l.filter (messageQualifies tt bot latest)) := by
  intro l
  induction l with
  | nil => rfl
  | cons m rest ih =>
    cases h : messageQualifies tt bot latest m with
    | true => simp [captureScan, List.filter_cons, h]
    | false => simp [captureScan, List.filter_cons, h, ih]

theorem captureScan_all_fail (tt : Nat) (bot : String) (latest : Option Nat)
    (st : String) (ex : Option String → Option Nat × Option String) :
    ∀ l : List SlackMessage,
      (∀ m ∈ l, messageQualifies tt bot latest m = false) →
      captureScan tt bot latest st ex l = (false, none, none) := by
  intro l
  induction l with
  | nil => intro _; rfl
  | cons m rest ih =>
    intro h
    have hm := h m (List.mem_cons_self m rest)
    simp [captureScan, hm]
    exact ih (fun x hx => h x (List.mem_cons_of_mem m hx))

theorem waitFrom_timeout_aux (thread : Nat → List SlackMessage) (tt : Nat)
    (bot : String) (latest : Option Nat) (T p : Nat) (st : String)
    (ex : Option String → Option Nat × Option String) (hp : 0 < p)
    (hnone : ∀ k, (capture_human_feedback (thread k) tt bot latest st ex).1 =
      false) :
    ∀ fuel elapsed k, T < elapsed + fuel →
      ∃ e, waitFrom thread tt bot latest T p st ex fuel elapsed k =
          some ⟨WaitReturn.timedOut, e, 1⟩ ∧
        T ≤ e ∧ (T ≤ elapsed → e = elapsed) ∧ (elapsed < T → e < T + p) := by
  intro fuel
  induction fuel with
  | zero =>
    intro elapsed k h
    have hnl : ¬ elapsed < T := by omega
    refine ⟨elapsed, ?_, by omega, fun _ => rfl, fun h2 => absurd h2 hnl⟩
    rw [waitFrom]
    simp [hnl]
  | succ f ih =>
    intro elapsed k h
    by_cases hlt : elapsed < T
    · have hcap := hnone k
      obtain ⟨e, heq, hTe, hEq, hLt⟩ := ih (elapsed + p) (k + 1) (by omega)
      refine ⟨e, ?_, hTe, fun h2 => absurd hlt (by omega), fun _ => ?_⟩
      · rw [waitFrom]
        simp [hlt, hcap, heq]
      · by_cases h3 : elapsed + p < T
        · exact hLt h3
        · have := hEq (by omega)
          omega
    · refine ⟨elapsed, ?_, by omega, fun _ => rfl, fun h2 => absurd h2 hlt⟩
      rw [waitFrom]
      simp [hlt]

theorem waitFrom_found_aux (thread : Nat → List SlackMessage) (tt : Nat)
    (bot : String) (latest : Option Nat) (T p : Nat) (st : String)
    (ex : Option String → Option Nat × Option String) (pl : Option String)
    (ma : Option Nat) :
    ∀ j fuel elapsed k0,
      (∀ i, i < j →
        (capture_human_feedback (thread (k0 + i)) tt bot latest st ex).1 =
          false) →
      capture_human_feedback (thread (k0 + j)) tt bot latest st ex =
        (true, pl, ma) →
      elapsed + j * p < T → j < fuel →
      (st = "info" → waitFrom thread tt bot latest T p st ex fuel elapsed k0 =
        some ⟨WaitReturn.reply pl none, elapsed + j * p, 0⟩) ∧
      (st = "analysts" →
        waitFrom thread tt bot latest T p st ex fuel elapsed k0 =
          some ⟨WaitReturn.reply pl ma, elapsed + j * p, 0⟩) := by
  intro j
  induction j with
  | zero =>
    intro fuel elapsed k0 _ hfound hT hfuel
    simp only [Nat.add_zero] at hfound
    have hlt : elapsed < T := by simpa using hT
    cases fuel with
    | zero => omega
    | succ f =>
      constructor
      · intro hst
        subst hst
        rw [waitFrom]
        simp [hlt, hfound]
      · intro hst
        subst hst
        rw [waitFrom]
        simp [hlt, hfound]
  | succ jj ih =>
    intro fuel elapsed k0 hnf hfound hT hfuel
    cases fuel with
    | zero => omega
    | succ f =>
      have h0 : (capture_human_feedback (thread k0) tt bot latest st ex).1 =
          false := by
        have := hnf 0 (Nat.succ_pos jj)
        simpa using this
      have hshift : ∀ i, i < jj →
          (capture_human_feedback (thread (k0 + 1 + i)) tt bot latest st ex).1 =
            false := by
        intro i hi
        have hx := hnf (i + 1) (by omega)
        have hidx : k0 + (i + 1) = k0 + 1 + i := by omega
        rwa [hidx] at hx
      have hfound' : capture_human_feedback (thread (k0 + 1 + jj)) tt bot latest
          st ex = (true, pl, ma) := by
        have hidx : k0 + (jj + 1) = k0 + 1 + jj := by omega
        rwa [hidx] at hfound
      have hT' : elapsed + p + jj * p < T :=
        lt_of_eq_of_lt (by ring) hT
      have hrec := ih f (elapsed + p) (k0 + 1) hshift hfound' hT' (by omega)
      have hlt : elapsed < T :=
        lt_of_le_of_lt (Nat.le_add_right elapsed ((jj + 1) * p)) hT
      have earith : elapsed + (jj + 1) * p = elapsed + p + jj * p := by ring
      constructor
      · intro hst
        rw [waitFrom]
        simp only [hlt, if_true, h0, Bool.false_and, Bool.false_eq_true,
          if_false]
        rw [earith]
        exact hrec.1 hst
      · intro hst
        rw [waitFrom]
        simp only [hlt, if_true, h0, Bool.false_and, Bool.false_eq_true,
          if_false]
        rw [earith]
        exact hrec.2 hst

/-- C2: when no qualifying message ever arrives,
`wait_for_feedback_periodically` with timeout `T` and poll interval `p`
posts exactly one timeout notification and returns the `(False, None)`
timeout result, at an elapsed wait of at least `T` and at most `T + p`
(never earlier than `T`, never later than one poll interval past it). -/
theorem wait_for_feedback_timeout (thread : Nat → List SlackMessage)
    (tt : Nat) (bot : String) (latest : Option Nat)
    (ex : Option String → Option Nat × Option String) (T p fuel : Nat)
    (st : String) (hp : 0 < p)
    (hnone : ∀ k, (capture_human_feedback (thread k) tt bot latest st ex).1 =
      false)
    (hfuel : T < fuel) :
    (wait_for_feedback_periodically thread tt bot latest ex fuel T p
      st).isSome = true ∧
    ∀ out, wait_for_feedback_periodically thread tt bot latest ex fuel T p st =
        some out →
      out.result = WaitReturn.timedOut ∧ out.timeout_posts = 1 ∧
      T ≤ out.elapsed ∧ out.elapsed ≤ T + p := by
  obtain ⟨e, heq, hTe, hEq, hLt⟩ := waitFrom_timeout_aux thread tt bot latest
    T p st ex hp hnone fuel 0 0 (by omega)
  have heq' : wait_for_feedback_periodically thread tt bot latest ex fuel T p
      st = some ⟨WaitReturn.timedOut, e, 1⟩ := heq
  constructor
  · rw [heq']
    rfl
  · intro out hout
    rw [heq'] at hout
    cases hout
    refine ⟨rfl, rfl, hTe, ?_⟩
    show e ≤ T + p
    by_cases h0 : 0 < T
    · have := hLt h0
      omega
    · have := hEq (by omega)
      omega

/-- C2 witness: an empty thread with timeout 6 and poll interval 3 times out
at elapsed 6, posting one notification. -/
theorem wait_for_feedback_timeout_witness :
    (wait_for_feedback_periodically (fun _ => []) 0 "B" none emptyExtract 7 6 3
      "info").isSome = true ∧
    ((⟨WaitReturn.timedOut, 6, 1⟩ : WaitOutcome).result = WaitReturn.timedOut ∧
      (⟨WaitReturn.timedOut, 6, 1⟩ : WaitOutcome).timeout_posts = 1 ∧
      6 ≤ (⟨WaitReturn.timedOut, 6, 1⟩ : WaitOutcome).elapsed ∧
      (⟨WaitReturn.timedOut, 6, 1⟩ : WaitOutcome).elapsed ≤ 6 + 3) :=
  ⟨(wait_for_feedback_timeout (fun _ => []) 0 "B" none emptyExtract 6 3 7
      "info" (by decide) (fun _ => rfl) (by decide)).1,
    (wait_for_feedback_timeout (fun _ => []) 0 "B" none emptyExtract 6 3 7
      "info" (by decide) (fun _ => rfl) (by decide)).2
      ⟨WaitReturn.timedOut, 6, 1⟩ (by decide)⟩

/-- C3: the gateway's poll never returns a message authored by the bot, the
initial thread message, or a message at or before `latest_ts` — filtering
the thread to the qualifying messages does not change `capture_human_feedback`
at all, the qualification test is exactly "has a truthy author other than the
bot, is not the initial message, and is strictly newer than the marker", and
a thread of only non-qualifying messages yields `(False, None, None)`;
moreover on the first poll at which a qualifying message exists the wait
returns `(found, payload)` immediately, with no further poll interval
added. -/
theorem capture_filtering_and_immediate_return :
    (∀ (msgs : List SlackMessage) (tt : Nat) (bot : String)
        (latest : Option Nat) (st : String)
        (ex : Option String → Option Nat × Option String),
      capture_human_feedback msgs tt bot latest st ex =
        capture_human_feedback (msgs.filter (messageQualifies tt bot latest))
          tt bot latest st ex) ∧
    (∀ (tt : Nat) (bot : String) (latest : Option Nat) (m : SlackMessage),
      messageQualifies tt bot latest m = true ↔
        (truthyStr m.user = true ∧ m.user ≠ some bot ∧ m.ts ≠ tt ∧
          ∀ lt, latest = some lt → lt < m.ts)) ∧
    (∀ (msgs : List SlackMessage) (tt : Nat) (bot : String)
        (latest : Option Nat) (st : String)
        (ex : Option String → Option Nat × Option String),
      (∀ m ∈ msgs, messageQualifies tt bot latest m = false) →
      capture_human_feedback msgs tt bot latest st ex = (false, none, none)) ∧
    (∀ (thread : Nat → List SlackMessage) (tt : Nat) (bot : String)
        (latest : Option Nat) (T p fuel j : Nat) (pl : Option String)
        (ma : Option Nat) (st : String)
        (ex : Option String → Option Nat × Option String),
      (∀ i, i < j →
        (capture_human_feedback (thread i) tt bot latest st ex).1 = false) →
      capture_human_feedback (thread j) tt bot latest st ex = (true, pl, ma) →
      j * p < T → j < fuel →
      (st = "info" →
        wait_for_feedback_periodically thread tt bot latest ex fuel T p st =
          some ⟨WaitReturn.reply pl none, j * p, 0⟩) ∧
      (st = "analysts" →
        wait_for_feedback_periodically thread tt bot latest ex fuel T p st =
          some ⟨WaitReturn.reply pl ma, j * p, 0⟩)) := by
  refine ⟨?_, ?_, ?_, ?_⟩
  · intro msgs tt bot latest st ex
    unfold capture_human_feedback
    rw [captureScan_filter, List.filter_reverse]
  · intro tt bot latest m
    cases latest with
    | none => simp [messageQualifies, and_assoc]
    | some lt => simp [messageQualifies, and_assoc]
  · intro msgs tt bot latest st ex h
    unfold capture_human_feedback
    exact captureScan_all_fail tt bot latest st ex msgs.reverse
      (fun m hm => h m (List.mem_reverse.mp hm))
  · intro thread tt bot latest T p fuel j pl ma st ex hnf hfound hT hfuel
    have h := waitFrom_found_aux thread tt bot latest T p st ex pl ma j fuel
      0 0 (fun i hi => by simpa using hnf i hi) (by simpa using hfound)
      (by simpa using hT) hfuel
    constructor
    · intro hst
      have := h.1 hst
      simpa [wait_for_feedback_periodically] using this
    · intro hst
      have := h.2 hst
      simpa [wait_for_feedback_periodically] using this

/-- C3 witness: filtering a mixed thread to its qualifying messages leaves
the capture unchanged; an all-stale thread yields no find; and a reply
appearing at the second poll is returned at elapsed `1 * 3` with no timeout
notification. -/
theorem capture_filtering_witness :
    capture_human_feedback mixedMsgs 0 "B" (some 10) "info" emptyExtract =
      capture_human_feedback
        (mixedMsgs.filter (messageQualifies 0 "B" (some 10))) 0 "B" (some 10)
        "info" emptyExtract ∧
    capture_human_feedback staleMsgs 0 "B" (some 10) "info" emptyExtract =
      (false, none, none) ∧
    wait_for_feedback_periodically demoThread 0 "B" none emptyExtract 100 180 3
        "info" = some ⟨WaitReturn.reply (some "hi") none, 1 * 3, 0⟩ :=
  ⟨capture_filtering_and_immediate_return.1 mixedMsgs 0 "B" (some 10) "info"
      emptyExtract,
    capture_filtering_and_immediate_return.2.2.1 staleMsgs 0 "B" (some 10)
      "info" emptyExtract (by decide),
    (capture_filtering_and_immediate_return.2.2.2 demoThread 0 "B" none 180 3
      100 1 (some "hi") none "info" emptyExtract
      (fun i hi => by
        have : i = 0 := by omega
        subst this
        rfl)
      rfl (by decide) (by decide)).1 rfl⟩

end SlackBot
